import Mathlib

/-!
Verification of the order-lifecycle and cart logic of the ecommerce store
(store/views.py, store/models.py, store/admin.py, store/cart.py,
store/services/shipping.py), as a shallow embedding in Lean.

Data model: stock lives in ColorStock rows keyed by (producto, talle, color)
through TalleProducto; the session cart is a dict from a (producto, talle,
color) key to a quantity; a Pedido has an estado string, an optional
tracking number, order lines (ItemPedido) and an append-only OrderLog.
-/

namespace Store

/-- One ColorStock row joined with its TalleProducto: the stock kept for the
combination (producto id, talle, color).  Models store/models.py,
classes TalleProducto and ColorStock. -/
structure VariantRow where
  pid : Nat
  talle : String
  color : String
  stock : Nat
deriving DecidableEq, Repr

/-- The ColorStock table, in database order. -/
abbrev StockDB := List VariantRow

/-- Case-insensitive color comparison, modelling the Django lookup
color__iexact used in store/views.py and store/models.py. -/
def colorIexact (a b : String) : Bool :=
  a.data.map Char.toLower == b.data.map Char.toLower

/-- Models Python str.strip on ASCII whitespace, as used for
request.POST.get("tracking_number", "").strip() and the admin list
filters. -/
def pyStrip (s : String) : String :=
  ⟨((s.data.dropWhile Char.isWhitespace).reverse.dropWhile Char.isWhitespace).reverse⟩

/-- Models the helper _variant_stock of store/views.py (lines 86-99): stock
for the combination (producto, talle, color); 0 when the TalleProducto row
does not exist or no ColorStock row matches the color case-insensitively. -/
def variantStock (db : StockDB) (pid : Nat) (talle color : String) : Nat :=
  if db.any (fun v => v.pid == pid && v.talle == talle) then
    match db.find? (fun v => v.pid == pid && v.talle == talle && colorIexact v.color color) with
    | some v => v.stock
    | none => 0
  else 0

/-- An order line: ItemPedido of store/models.py (producto, talle, color,
cantidad; the snapshot price is irrelevant to stock logic). -/
structure OrderLine where
  pid : Nat
  talle : String
  color : String
  cantidad : Nat
deriving DecidableEq, Repr

/-- The TalleProducto.objects.get(producto=..., talle=...) match used by
Pedido.descontar_stock_si_realizado. -/
def lineMatchesTP (v : VariantRow) (it : OrderLine) : Bool :=
  v.pid == it.pid && v.talle == it.talle

/-- The full ColorStock match (talle_producto plus color__iexact). -/
def lineMatches (v : VariantRow) (it : OrderLine) : Bool :=
  v.pid == it.pid && v.talle == it.talle && colorIexact v.color it.color

/-- The new stock value computed in store/models.py lines 148-149:
nuevo = cs.stock - it.cantidad; cs.stock = nuevo if nuevo > 0 else 0. -/
def nuevoStock (stock cantidad : Nat) : Nat :=
  if 0 < (stock : Int) - (cantidad : Int) then ((stock : Int) - (cantidad : Int)).toNat else 0

/-- ColorStock.objects.filter(talle_producto=tp, color__iexact=...).first()
followed by the conditional save: update the first fully matching row,
do nothing when none matches. -/
def updateColorStock : StockDB → OrderLine → StockDB
  | [], _ => []
  | v :: rest, it =>
    if lineMatches v it then
      { v with stock := nuevoStock v.stock it.cantidad } :: rest
    else v :: updateColorStock rest it

/-- The body of the per-item loop of Pedido.descontar_stock_si_realizado
(store/models.py lines 143-152): when no TalleProducto row matches, the
DoesNotExist handler just continues; otherwise the first matching
ColorStock row (if any) is decremented. -/
def descontarItem (db : StockDB) (it : OrderLine) : StockDB :=
  if db.any (fun v => lineMatchesTP v it) then updateColorStock db it else db

/-- Pedido.descontar_stock_si_realizado (store/models.py lines 138-152):
fold the per-item decrement over the order lines in order. -/
def descontar_stock_si_realizado (db : StockDB) (items : List OrderLine) : StockDB :=
  items.foldl descontarItem db

/-- One OrderLog entry, identified by the action message format written in
store/views.py lines 424-435 (the same three formats appear in
store/admin.py save_model). -/
inductive LogAction where
  | estadoCambiado (prev next : String)
  | trackingActualizado (prev next : Option String)
  | stockDescontado
deriving DecidableEq, Repr

/-- Recognizes the log entry written as "Stock descontado por estado ...". -/
def isStockDescontado : LogAction → Bool
  | LogAction.estadoCambiado _ _ => false
  | LogAction.trackingActualizado _ _ => false
  | LogAction.stockDescontado => true

/-- Recognizes the log entries written as "Estado cambiado: a -> b". -/
def isEstadoCambiado : LogAction → Bool
  | LogAction.estadoCambiado _ _ => true
  | LogAction.trackingActualizado _ _ => false
  | LogAction.stockDescontado => false

/-- The Pedido fields relevant to the admin status update: estado,
tracking_number, the order lines and the log (store/models.py, class
Pedido; logs listed in creation order, new entries appended last). -/
structure Pedido where
  estado : String
  trackingNumber : Option String
  items : List OrderLine
  logs : List LogAction
deriving DecidableEq, Repr

/-- The persistent state touched by the admin order-detail POST handler. -/
structure AdminState where
  pedido : Pedido
  db : StockDB
deriving DecidableEq, Repr

/-- The POST branch of admin_order_detail (store/views.py lines 392-438).
estadoParam models request.POST.get("estado", pedido.estado) and
trackingParam the raw request.POST.get("tracking_number", "").  Returns the
new state and True exactly when the request was rejected (estado
"realizado" with empty stripped tracking), in which case nothing is
persisted. -/
def admin_order_detail_post (st : AdminState) (estadoParam : Option String)
    (trackingParam : String) : AdminState × Bool :=
  let nuevoEstado := estadoParam.getD st.pedido.estado
  let nuevoTracking := pyStrip trackingParam
  if nuevoEstado = "realizado" ∧ nuevoTracking = "" then (st, true)
  else
    -- pedido.tracking_number = nuevo_tracking if nuevo_tracking else None
    let trackingField : Option String := if nuevoTracking ≠ "" then some nuevoTracking else none
    -- The two conditional logs compare the values before and after the save,
    -- in the order the handler writes them (estado first, tracking second).
    let logs1 := st.pedido.logs
      ++ (if st.pedido.estado ≠ nuevoEstado then
            [LogAction.estadoCambiado st.pedido.estado nuevoEstado] else [])
      ++ (if st.pedido.trackingNumber ≠ trackingField then
            [LogAction.trackingActualizado st.pedido.trackingNumber trackingField] else [])
    if st.pedido.estado ≠ "realizado" ∧ nuevoEstado = "realizado" then
      ({ pedido := { estado := nuevoEstado, trackingNumber := trackingField,
                     items := st.pedido.items,
                     logs := logs1 ++ [LogAction.stockDescontado] },
         db := descontar_stock_si_realizado st.db st.pedido.items }, false)
    else
      ({ pedido := { estado := nuevoEstado, trackingNumber := trackingField,
                     items := st.pedido.items, logs := logs1 },
         db := st.db }, false)

end Store

namespace Store

theorem nuevoStock_eq_sub (s q : Nat) : nuevoStock s q = s - q := by
  unfold nuevoStock
  split <;> omega

theorem lineMatches_imp_TP {v : VariantRow} {it : OrderLine}
    (h : lineMatches v it = true) : lineMatchesTP v it = true := by
  unfold lineMatches at h
  unfold lineMatchesTP
  simp only [Bool.and_eq_true] at h ⊢
  exact ⟨h.1.1, h.1.2⟩

theorem updateColorStock_append (pre post : StockDB) (v : VariantRow) (it : OrderLine)
    (hpre : ∀ w ∈ pre, lineMatches w it = false) (hv : lineMatches v it = true) :
    updateColorStock (pre ++ v :: post) it =
      pre ++ { v with stock := nuevoStock v.stock it.cantidad } :: post := by
  induction pre with
  | nil => simp [updateColorStock, hv]
  | cons w pre ih =>
    have hw : lineMatches w it = false := hpre w (List.mem_cons_self w pre)
    simp only [List.cons_append, updateColorStock, hw]
    simp only [Bool.false_eq_true, if_false, List.append_eq]
    rw [ih (fun x hx => hpre x (List.mem_cons_of_mem w hx))]

theorem updateColorStock_id (db : StockDB) (it : OrderLine)
    (h : ∀ w ∈ db, lineMatches w it = false) :
    updateColorStock db it = db := by
  induction db with
  | nil => rfl
  | cons w rest ih =>
    have hw : lineMatches w it = false := h w (List.mem_cons_self w rest)
    simp only [updateColorStock, hw, Bool.false_eq_true, if_false]
    rw [ih (fun x hx => h x (List.mem_cons_of_mem w hx))]

theorem descontarItem_append (pre post : StockDB) (v : VariantRow) (it : OrderLine)
    (hpre : ∀ w ∈ pre, lineMatches w it = false) (hv : lineMatches v it = true) :
    descontarItem (pre ++ v :: post) it =
      pre ++ { v with stock := v.stock - it.cantidad } :: post := by
  have hany : (pre ++ v :: post).any (fun w => lineMatchesTP w it) = true := by
    refine List.any_eq_true.mpr ⟨v, ?_, lineMatches_imp_TP hv⟩
    exact List.mem_append_right pre (List.mem_cons_self v post)
  unfold descontarItem
  rw [hany]
  simp only [if_true]
  rw [updateColorStock_append pre post v it hpre hv, nuevoStock_eq_sub]

theorem descontarItem_skip (db : StockDB) (it : OrderLine)
    (h : ∀ w ∈ db, lineMatches w it = false) :
    descontarItem db it = db := by
  unfold descontarItem
  split
  · exact updateColorStock_id db it h
  · rfl

/-- Concrete order line used to evaluate the model on explicit inputs. -/
def itemW : OrderLine := ⟨1, "M", "rojo", 3⟩

/-- Concrete stock row matching itemW. -/
def vW : VariantRow := ⟨1, "M", "rojo", 10⟩

/-- Concrete pending order with one line of quantity 3. -/
def pedidoW : Pedido := ⟨"pendiente", none, [itemW], []⟩

/-- Concrete stock table with 10 units for the variant of itemW. -/
def dbW : StockDB := [vW]

/-- Concrete admin state: pending order over the stock table dbW. -/
def stW : AdminState := ⟨pedidoW, dbW⟩

/-- Concrete admin state whose order is already fulfilled. -/
def stRealizadoW : AdminState := ⟨⟨"realizado", some "T1", [itemW], []⟩, dbW⟩

/-- C3: for every order, a status update setting the state to realizado with
an empty or missing tracking number (empty after stripping) is rejected and
changes nothing: the order fields, the stock table and the log are all
unchanged, and the handler reports the rejection. -/
theorem c3_fulfill_without_tracking_rejected (st : AdminState) (tr : String)
    (htr : pyStrip tr = "") :
    admin_order_detail_post st (some "realizado") tr = (st, true) := by
  simp [admin_order_detail_post, htr]

theorem c3_fulfill_without_tracking_rejected_witness :
    pyStrip "  " = "" ∧
    admin_order_detail_post stW (some "realizado") "  " = (stW, true) :=
  ⟨by decide, c3_fulfill_without_tracking_rejected stW "  " (by decide)⟩

/-- C1: from a non-fulfilled state (pendiente or rechazado), the admin update
to realizado with a non-empty tracking number is accepted, replaces the stock
table by the per-line decrement fold over the order lines, and appends
exactly one stock-decrement log entry and exactly one status-change log
entry; the per-line decrement updates the first stock row matching the line
(producto, talle, color case-insensitive) to its stock minus the line
quantity floored at 0, leaving all other rows unchanged. -/
theorem c1_fulfillment_decrements_and_logs (st : AdminState) (tr : String)
    (pre post : StockDB) (v : VariantRow) (it : OrderLine)
    (hstate : st.pedido.estado = "pendiente" ∨ st.pedido.estado = "rechazado")
    (htr : pyStrip tr ≠ "")
    (hpre : ∀ w ∈ pre, lineMatches w it = false)
    (hv : lineMatches v it = true) :
    (admin_order_detail_post st (some "realizado") tr).2 = false ∧
    (admin_order_detail_post st (some "realizado") tr).1.pedido.estado = "realizado" ∧
    (admin_order_detail_post st (some "realizado") tr).1.db =
      descontar_stock_si_realizado st.db st.pedido.items ∧
    ((admin_order_detail_post st (some "realizado") tr).1.pedido.logs).countP isStockDescontado
      = (st.pedido.logs).countP isStockDescontado + 1 ∧
    ((admin_order_detail_post st (some "realizado") tr).1.pedido.logs).countP isEstadoCambiado
      = (st.pedido.logs).countP isEstadoCambiado + 1 ∧
    descontarItem (pre ++ v :: post) it =
      pre ++ { v with stock := v.stock - it.cantidad } :: post := by
  have hne : st.pedido.estado ≠ "realizado" := by
    rcases hstate with h | h <;> rw [h] <;> decide
  have hdesc := descontarItem_append pre post v it hpre hv
  by_cases hTrk : st.pedido.trackingNumber = some (pyStrip tr) <;>
    simp [admin_order_detail_post, htr, hne, hTrk, hdesc, List.countP_append,
      List.countP_cons, isStockDescontado, isEstadoCambiado]

theorem c1_fulfillment_decrements_and_logs_witness :
    (admin_order_detail_post stW (some "realizado") "T1").2 = false ∧
    (admin_order_detail_post stW (some "realizado") "T1").1.pedido.estado = "realizado" ∧
    (admin_order_detail_post stW (some "realizado") "T1").1.db =
      descontar_stock_si_realizado stW.db stW.pedido.items ∧
    ((admin_order_detail_post stW (some "realizado") "T1").1.pedido.logs).countP isStockDescontado
      = (stW.pedido.logs).countP isStockDescontado + 1 ∧
    ((admin_order_detail_post stW (some "realizado") "T1").1.pedido.logs).countP isEstadoCambiado
      = (stW.pedido.logs).countP isEstadoCambiado + 1 ∧
    descontarItem ([] ++ vW :: []) itemW =
      [] ++ { vW with stock := vW.stock - itemW.cantidad } :: [] :=
  c1_fulfillment_decrements_and_logs stW "T1" [] [] vW itemW (Or.inl rfl) (by decide)
    (fun w hw => absurd hw (List.not_mem_nil w)) (by decide)

/-- One status-update POST applied to the admin state, for iterating
sequences of requests. -/
def adminPostStep (st : AdminState) (post : Option String × String) : AdminState :=
  (admin_order_detail_post st post.1 post.2).1

/-- C2 counterexample: the claim says stock is decremented at most once over
every sequence of status updates, but the handler validates no transition
graph: resetting an already fulfilled order to pendiente and fulfilling it
again decrements the same line a second time (10 drops to 4, while at most
one decrement of quantity 3 would leave at least 7). -/
theorem c2_counterexample_double_decrement :
    ([(some "realizado", "T1"), (some "pendiente", ""), (some "realizado", "T2")].foldl
        adminPostStep stW).db = [⟨1, "M", "rojo", 4⟩] ∧
    (4 : Nat) < 10 - 3 := by decide

/-- C2 amended: the stock decrement is triggered exactly by accepted updates
whose previous state is not realizado and whose new state is realizado; in
particular re-submitting realizado for an already fulfilled order never
touches stock.  At most once only holds per entry into realizado: a sequence
that leaves realizado and re-enters it decrements again. -/
theorem c2_decrement_guard (st : AdminState) (estadoParam : Option String)
    (trackingParam : String) :
    (st.pedido.estado = "realizado" →
      (admin_order_detail_post st estadoParam trackingParam).1.db = st.db) ∧
    ((admin_order_detail_post st estadoParam trackingParam).1.db ≠ st.db →
      st.pedido.estado ≠ "realizado" ∧ estadoParam.getD st.pedido.estado = "realizado") := by
  unfold admin_order_detail_post
  dsimp only
  split
  · exact ⟨fun _ => rfl, fun h => absurd rfl h⟩
  · split
    next hguard => exact ⟨fun h => absurd h hguard.1, fun _ => hguard⟩
    next => exact ⟨fun _ => rfl, fun h => absurd rfl h⟩

theorem c2_decrement_guard_witness :
    (admin_order_detail_post stRealizadoW (some "realizado") "T2").1.db = stRealizadoW.db :=
  (c2_decrement_guard stRealizadoW (some "realizado") "T2").1 rfl

/-- Appends one OrderLog entry: Pedido.add_log via OrderLog.objects.create. -/
def addLogWrite (a : LogAction) : AdminState → AdminState :=
  fun s => { s with pedido := { s.pedido with logs := s.pedido.logs ++ [a] } }

/-- The ordered individual database writes issued by admin_order_detail on
an accepted transition to realizado from a non-realizado state with stripped
tracking tr (store/views.py lines 419-435): the pedido.save of estado and
tracking_number, the status-change log, the conditional tracking log, one
ColorStock save per order line, and the stock-decrement log.  The view opens
no transaction, so under Django autocommit each write commits on its own and
execution may stop between any two of them. -/
def fulfillment_writes (p0 : Pedido) (tr : String) : List (AdminState → AdminState) :=
  [fun s => { s with pedido :=
      { s.pedido with estado := "realizado", trackingNumber := some tr } }]
  ++ [addLogWrite (LogAction.estadoCambiado p0.estado "realizado")]
  ++ (if p0.trackingNumber ≠ some tr then
        [addLogWrite (LogAction.trackingActualizado p0.trackingNumber (some tr))] else [])
  ++ (p0.items.map fun it => fun s => { s with db := descontarItem s.db it })
  ++ [addLogWrite LogAction.stockDescontado]

/-- The state persisted when execution stops after the first k writes. -/
def applyWrites (st : AdminState) (ws : List (AdminState → AdminState)) (k : Nat) : AdminState :=
  (ws.take k).foldl (fun s w => w s) st

/-- C6: the fulfillment transition is not all-or-nothing.  Stopping after
the first committed write (the status save) is a reachable persisted outcome
in which the order reads realizado while its lines were never decremented;
applying every write reproduces exactly the full handler result, so the
write list models the same code path. -/
theorem c6_fulfillment_not_atomic :
    (applyWrites stW (fulfillment_writes pedidoW "T1") 1).pedido.estado = "realizado" ∧
    (applyWrites stW (fulfillment_writes pedidoW "T1") 1).db = dbW ∧
    descontar_stock_si_realizado dbW pedidoW.items ≠ dbW ∧
    applyWrites stW (fulfillment_writes pedidoW "T1") (fulfillment_writes pedidoW "T1").length
      = (admin_order_detail_post stW (some "realizado") "T1").1 := by decide

/-- Outcome of the HTTP POST inside AndreaniClient.calculate_shipping:
either requests raises a RequestException (network failure, timeout), or a
response arrives with a status code and an optional numeric cost field in
its JSON body. -/
inductive HttpOutcome where
  | requestException
  | response (status : Nat) (cost : Option Int)
deriving DecidableEq, Repr

/-- How calculate_shipping ends: returning a cost, raising ShippingError, or
returning None by falling off the end of the function. -/
inductive ShippingResult where
  | cost (c : Int)
  | shippingError
  | noneReturned
deriving DecidableEq, Repr

/-- AndreaniClient.calculate_shipping (store/services/shipping.py lines
50-101).  The except RequestException handler only logs: the raise of
ShippingError inside it is commented out, so the function falls through and
returns None.  raise_for_status turns an HTTP error status (at least 400,
e.g. an auth failure) into HTTPError, a subclass of RequestException, hence
equally swallowed.  A success-status body without a cost field raises
ShippingError, which is not a RequestException and so propagates. -/
def calculate_shipping : HttpOutcome → ShippingResult
  | HttpOutcome.requestException => ShippingResult.noneReturned
  | HttpOutcome.response status cost =>
    if 400 ≤ status then ShippingResult.noneReturned
    else
      match cost with
      | none => ShippingResult.shippingError
      | some c => ShippingResult.cost c

/-- C7: contrary to the claim (and to the docstring of calculate_shipping,
which promises ShippingError on network, auth and malformed-response
errors), a network failure or an auth failure (HTTP 401) makes
calculate_shipping return None instead of raising; only the missing-cost
case raises, and a well-formed response yields the cost. -/
theorem c7_network_and_auth_errors_return_none :
    calculate_shipping HttpOutcome.requestException = ShippingResult.noneReturned ∧
    calculate_shipping (HttpOutcome.response 401 none) = ShippingResult.noneReturned ∧
    calculate_shipping (HttpOutcome.response 200 none) = ShippingResult.shippingError ∧
    calculate_shipping (HttpOutcome.response 200 (some 1500)) = ShippingResult.cost 1500 := by
  decide

/-- Stock table containing no row for the variant of itemW. -/
def dbMismatchW : StockDB := [⟨2, "L", "azul", 5⟩]

/-- Admin state whose pending order references a variant absent from the
stock table. -/
def stMismatchW : AdminState := ⟨pedidoW, dbMismatchW⟩

/-- C8 amended: the fulfillment stock decrement silently skips an order line
when no stock row matches its (producto, talle) pair or none matches its
color case-insensitively: the stock table is left unchanged and no error is
raised or reported. -/
theorem c8_decrement_silently_skips (db : StockDB) (it : OrderLine)
    (h : ∀ w ∈ db, lineMatches w it = false) :
    descontarItem db it = db :=
  descontarItem_skip db it h

theorem c8_decrement_silently_skips_witness :
    descontarItem dbMismatchW itemW = dbMismatchW :=
  c8_decrement_silently_skips dbMismatchW itemW (by decide)

/-- C8 counterexample: fulfilling an order whose only line matches no stock
row succeeds silently: the handler reports success, appends the
stock-decrement log entry, and changes no stock at all, so the decrement
does silently skip unmatched order lines. -/
theorem c8_counterexample_silent_skip :
    (admin_order_detail_post stMismatchW (some "realizado") "T7").2 = false ∧
    (admin_order_detail_post stMismatchW (some "realizado") "T7").1.db = dbMismatchW ∧
    ((admin_order_detail_post stMismatchW (some "realizado") "T7").1.pedido.logs).countP
      isStockDescontado = 1 ∧
    pedidoW.items ≠ [] := by decide

/-- Session cart key: the pk, talle and color of the f-string key
pk:talle:color used by store/views.py. -/
structure CartKey where
  pid : Nat
  talle : String
  color : String
deriving DecidableEq, Repr

/-- The session cart dict, entries in insertion order. -/
abbrev CartState := List (CartKey × Nat)

/-- cart.get(key, 0). -/
def cartGet (c : CartState) (k : CartKey) : Nat :=
  match c.find? (fun p => p.1 == k) with
  | some p => p.2
  | none => 0

/-- Assignment cart[key] = v with Python dict semantics: update in place
when the key exists, append otherwise. -/
def cartSet (c : CartState) (k : CartKey) (v : Nat) : CartState :=
  if c.any (fun p => p.1 == k) then
    c.map (fun p => if p.1 == k then (k, v) else p)
  else c ++ [(k, v)]

/-- Deletion del cart[key]: a dict holds the key at most once, so on the
list model the first occurrence is removed. -/
def cartDel : CartState → CartKey → CartState
  | [], _ => []
  | p :: rest, k => if p.1 == k then rest else p :: cartDel rest k

/-- How add_to_cart ends, one constructor per message branch of
store/views.py lines 103-146. -/
inductive AddOutcome where
  | invalidQuantity
  | missingVariantChoice
  | sinStock
  | stockMax (stock : Nat)
  | added (agregado : Nat) (limitado : Bool)
deriving DecidableEq, Repr

/-- The actually-added amount reported by add_to_cart (0 on every warning or
error branch, where nothing was added). -/
def addedOf : AddOutcome → Nat
  | AddOutcome.invalidQuantity => 0
  | AddOutcome.missingVariantChoice => 0
  | AddOutcome.sinStock => 0
  | AddOutcome.stockMax _ => 0
  | AddOutcome.added n _ => n

/-- add_to_cart (store/views.py lines 103-146): quantity is the parsed
integer of the POST field (a parse failure or a value below 1 is the
invalid-quantity rejection), talle and color must be chosen, and the
requested amount is clamped so that the stored total never exceeds the live
variant stock; adding nothing is a warning, not an exception. -/
def add_to_cart (db : StockDB) (c : CartState) (pid : Nat) (talle color : String)
    (quantity : Int) : CartState × AddOutcome :=
  if quantity < 1 then (c, AddOutcome.invalidQuantity)
  else if talle = "" ∨ color = "" then (c, AddOutcome.missingVariantChoice)
  else
    let key : CartKey := ⟨pid, talle, color⟩
    let enCarrito := cartGet c key
    let stock := variantStock db pid talle color
    if stock ≤ 0 then (c, AddOutcome.sinStock)
    else
      let nuevoTotal := if stock < enCarrito + quantity.toNat then stock
                        else enCarrito + quantity.toNat
      let agregado : Int := (nuevoTotal : Int) - (enCarrito : Int)
      if agregado ≤ 0 then (c, AddOutcome.stockMax stock)
      else (cartSet c key nuevoTotal, AddOutcome.added agregado.toNat (agregado < quantity))

theorem cartGet_map_set (c : CartState) (k : CartKey) (v : Nat)
    (h : c.any (fun p => p.1 == k) = true) :
    cartGet (c.map (fun p => if p.1 == k then (k, v) else p)) k = v := by
  induction c with
  | nil => simp at h
  | cons p rest ih =>
    rw [List.any_cons] at h
    cases hp : (p.1 == k) with
    | true => simp [cartGet, List.find?, hp]
    | false =>
      rw [hp, Bool.false_or] at h
      have := ih h
      simp only [List.map_cons, hp, Bool.false_eq_true, if_false]
      simpa [cartGet, List.find?, hp] using this

theorem cartGet_append_new (c : CartState) (k : CartKey) (v : Nat)
    (h : c.any (fun p => p.1 == k) = false) :
    cartGet (c ++ [(k, v)]) k = v := by
  induction c with
  | nil => simp [cartGet, List.find?]
  | cons p rest ih =>
    rw [List.any_cons, Bool.or_eq_false_iff] at h
    simpa [cartGet, List.find?, h.1] using ih h.2

theorem cartGet_cartSet_self (c : CartState) (k : CartKey) (v : Nat) :
    cartGet (cartSet c k v) k = v := by
  unfold cartSet
  cases h : c.any (fun p => p.1 == k) with
  | true => simpa [h] using cartGet_map_set c k v h
  | false => simpa [h] using cartGet_append_new c k v h

/-- C4 amended: for a positive requested quantity q, a chosen talle and
color, positive live stock s, and a current in-cart quantity current at most
s, a request with current + q over s stores exactly s and reports the
actually-added amount s - current (a stock-max warning, not an exception,
when current = s); a quantity below 1 is rejected with the invalid-quantity
error and an unchanged cart.  (The unrestricted claim fails when the live
stock is 0 while the stale cart quantity is positive: see the
counterexample.) -/
theorem c4_add_clamps_to_stock (db : StockDB) (c : CartState) (pid : Nat)
    (talle color : String) (q q2 : Int)
    (ht : talle ≠ "") (hc : color ≠ "") (hq : 1 ≤ q) (hq2 : q2 < 1)
    (hs : 0 < variantStock db pid talle color)
    (hcur : cartGet c ⟨pid, talle, color⟩ ≤ variantStock db pid talle color)
    (hover : variantStock db pid talle color < cartGet c ⟨pid, talle, color⟩ + q.toNat) :
    cartGet (add_to_cart db c pid talle color q).1 ⟨pid, talle, color⟩
      = variantStock db pid talle color ∧
    addedOf (add_to_cart db c pid talle color q).2
      = variantStock db pid talle color - cartGet c ⟨pid, talle, color⟩ ∧
    (add_to_cart db c pid talle color q).2 ≠ AddOutcome.invalidQuantity ∧
    add_to_cart db c pid talle color q2 = (c, AddOutcome.invalidQuantity) := by
  have h1 : ¬ q < 1 := by omega
  have h2 : ¬ (talle = "" ∨ color = "") := by
    rintro (h | h)
    · exact ht h
    · exact hc h
  have h3 : ¬ variantStock db pid talle color ≤ 0 := by omega
  unfold add_to_cart
  dsimp only
  rw [if_pos hq2, if_neg h1, if_neg h2, if_neg h3, if_pos hover]
  by_cases hcs : cartGet c ⟨pid, talle, color⟩ = variantStock db pid talle color
  · rw [if_pos (by omega :
      (variantStock db pid talle color : Int) - (cartGet c ⟨pid, talle, color⟩ : Int) ≤ 0)]
    refine ⟨hcs.symm ▸ rfl, ?_, by simp, rfl⟩
    simp only [addedOf]
    omega
  · have hlt : cartGet c ⟨pid, talle, color⟩ < variantStock db pid talle color :=
      Nat.lt_of_le_of_ne hcur hcs
    rw [if_neg (by omega :
      ¬ (variantStock db pid talle color : Int) - (cartGet c ⟨pid, talle, color⟩ : Int) ≤ 0)]
    refine ⟨cartGet_cartSet_self c ⟨pid, talle, color⟩ _, ?_, by simp, rfl⟩
    simp only [addedOf]
    omega

/-- Stock table with three units for the variant of itemW. -/
def dbAddW : StockDB := [⟨1, "M", "rojo", 3⟩]

/-- Session cart already holding one unit of that variant. -/
def cAddW : CartState := [(⟨1, "M", "rojo"⟩, 1)]

theorem c4_add_clamps_to_stock_witness :
    cartGet (add_to_cart dbAddW cAddW 1 "M" "rojo" 5).1 ⟨1, "M", "rojo"⟩
      = variantStock dbAddW 1 "M" "rojo" ∧
    addedOf (add_to_cart dbAddW cAddW 1 "M" "rojo" 5).2
      = variantStock dbAddW 1 "M" "rojo" - cartGet cAddW ⟨1, "M", "rojo"⟩ ∧
    (add_to_cart dbAddW cAddW 1 "M" "rojo" 5).2 ≠ AddOutcome.invalidQuantity ∧
    add_to_cart dbAddW cAddW 1 "M" "rojo" 0 = (cAddW, AddOutcome.invalidQuantity) :=
  c4_add_clamps_to_stock dbAddW cAddW 1 "M" "rojo" 5 0 (by decide) (by decide) (by decide)
    (by decide) (by decide) (by decide) (by decide)

/-- Stock table whose only row for the variant has stock 0. -/
def dbZeroW : StockDB := [⟨1, "M", "rojo", 0⟩]

/-- Stale session cart still holding one unit of the sold-out variant. -/
def cStaleW : CartState := [(⟨1, "M", "rojo"⟩, 1)]

/-- C4 counterexample: with live stock s = 0 and a stale in-cart quantity 1,
the claim premises hold (q = 1 is positive and current + q is over s) but
the stored quantity stays 1 instead of becoming s = 0: the request leaves on
the no-stock warning path without reconciling the cart. -/
theorem c4_counterexample_zero_stock :
    variantStock dbZeroW 1 "M" "rojo" = 0 ∧
    variantStock dbZeroW 1 "M" "rojo"
      < cartGet cStaleW ⟨1, "M", "rojo"⟩ + (1 : Int).toNat ∧
    (add_to_cart dbZeroW cStaleW 1 "M" "rojo" 1).1 = cStaleW ∧
    cartGet (add_to_cart dbZeroW cStaleW 1 "M" "rojo" 1).1 ⟨1, "M", "rojo"⟩ = 1 ∧
    (1 : Nat) ≠ 0 := by decide

/-- A Producto row: primary key and price (precio modelled as an integer
amount of cents). -/
structure ProductRow where
  pid : Nat
  precio : Int
deriving DecidableEq, Repr

/-- The Producto table. -/
abbrev ProductTable := List ProductRow

/-- Producto.objects lookup by primary key. -/
def findProducto (prods : ProductTable) (pid : Nat) : Option ProductRow :=
  prods.find? (fun p => p.pid == pid)

/-- One rendered line of the cart page: key, quantity, subtotal and the max
the template may show. -/
structure CartItemView where
  key : CartKey
  cantidad : Nat
  subtotal : Int
  maxStock : Nat
deriving DecidableEq, Repr

/-- Result of the cart view: the reconciled session cart, the rendered
items, and whether the session was rewritten. -/
structure CartReadResult where
  cart : CartState
  items : List CartItemView
  changed : Bool
deriving DecidableEq, Repr

/-- The cart view (store/views.py lines 149-193): for each entry, fetch the
product (get_object_or_404 aborts with none when it is missing), purge the
entry when live stock is 0, cap the quantity when it exceeds live stock, and
flag the session as changed in both cases. -/
def cart_view (prods : ProductTable) (db : StockDB) : CartState → Option CartReadResult
  | [] => some ⟨[], [], false⟩
  | (k, qty) :: rest =>
    match findProducto prods k.pid with
    | none => none
    | some prod =>
      match cart_view prods db rest with
      | none => none
      | some r =>
        let maxStock := variantStock db k.pid k.talle k.color
        if maxStock ≤ 0 then some ⟨r.cart, r.items, true⟩
        else if maxStock < qty then
          some ⟨(k, maxStock) :: r.cart,
                ⟨k, maxStock, prod.precio * (maxStock : Int), maxStock⟩ :: r.items, true⟩
        else
          some ⟨(k, qty) :: r.cart,
                ⟨k, qty, prod.precio * (qty : Int), maxStock⟩ :: r.items, r.changed⟩

/-- Spec-side description of reconciliation (spec section 4.1): entries
whose live stock is zero are purged, the others are capped to live stock. -/
def reconcileSpec (db : StockDB) (c : CartState) : CartState :=
  c.filterMap fun e =>
    if variantStock db e.1.pid e.1.talle e.1.color = 0 then none
    else some (e.1, min e.2 (variantStock db e.1.pid e.1.talle e.1.color))

/-- Spec-side rendered items: price times reconciled quantity for each
surviving entry. -/
def itemsSpec (prods : ProductTable) (db : StockDB) (c : CartState) : List CartItemView :=
  c.filterMap fun e =>
    match findProducto prods e.1.pid with
    | none => none
    | some prod =>
      if variantStock db e.1.pid e.1.talle e.1.color = 0 then none
      else some ⟨e.1, min e.2 (variantStock db e.1.pid e.1.talle e.1.color),
                 prod.precio * (min e.2 (variantStock db e.1.pid e.1.talle e.1.color) : Int),
                 variantStock db e.1.pid e.1.talle e.1.color⟩

/-- Spec-side changed flag: some entry was capped or purged. -/
def changedSpec (db : StockDB) (c : CartState) : Bool :=
  c.any fun e =>
    decide (variantStock db e.1.pid e.1.talle e.1.color = 0)
    || decide (variantStock db e.1.pid e.1.talle e.1.color < e.2)

/-- C5 amended: the cart display view re-validates every entry against live
stock without raising (whenever the referenced products exist): zero-stock
entries are purged, quantities above live stock are capped, and the caller
is told whether anything changed.  (The claim does not extend to every
cart-reading operation: checkout reads the cart without re-validating, see
the counterexample.) -/
theorem c5_cart_view_reconciles (prods : ProductTable) (db : StockDB) (c : CartState)
    (hp : ∀ e ∈ c, (findProducto prods e.1.pid).isSome) :
    cart_view prods db c
      = some ⟨reconcileSpec db c, itemsSpec prods db c, changedSpec db c⟩ := by
  induction c with
  | nil => rfl
  | cons e rest ih =>
    obtain ⟨k, qty⟩ := e
    have hk : (findProducto prods k.pid).isSome := hp _ (List.mem_cons_self _ _)
    obtain ⟨prod, hprod⟩ := Option.isSome_iff_exists.mp hk
    have ihr := ih (fun x hx => hp x (List.mem_cons_of_mem _ hx))
    by_cases h0 : variantStock db k.pid k.talle k.color = 0
    · simp [cart_view, hprod, ihr, h0, reconcileSpec, itemsSpec, changedSpec]
    · by_cases hcap : variantStock db k.pid k.talle k.color < qty
      · simp [cart_view, hprod, ihr, h0, hcap, Nat.le_of_lt hcap, Nat.pos_of_ne_zero h0,
          reconcileSpec, itemsSpec, changedSpec, Nat.min_eq_right (Nat.le_of_lt hcap)]
      · simp [cart_view, hprod, ihr, h0, hcap, Nat.pos_of_ne_zero h0,
          reconcileSpec, itemsSpec, changedSpec, Nat.min_eq_left (Nat.le_of_not_lt hcap)]
        exact Or.inl (Nat.le_of_not_lt hcap)

/-- Product table for the reconciliation examples. -/
def prodsW : ProductTable := [⟨1, 100⟩]

/-- Stock table with a single unit left for the variant. -/
def dbLowW : StockDB := [⟨1, "M", "rojo", 1⟩]

/-- Stale session cart holding five units of that variant. -/
def cOverW : CartState := [(⟨1, "M", "rojo"⟩, 5)]

theorem c5_cart_view_reconciles_witness :
    cart_view prodsW dbLowW cOverW
      = some ⟨reconcileSpec dbLowW cOverW, itemsSpec prodsW dbLowW cOverW,
              changedSpec dbLowW cOverW⟩ :=
  c5_cart_view_reconciles prodsW dbLowW cOverW (by decide)

/-- The item-building loop of checkout (store/views.py lines 256-267): each
entry becomes (key, qty, price times qty); the stored quantity is used as
is, with no stock lookup, no capping and no purging, and the session cart is
not rewritten. -/
def checkout_items (prods : ProductTable) : CartState → Option (List (CartKey × Nat × Int))
  | [] => some []
  | (k, qty) :: rest =>
    match findProducto prods k.pid with
    | none => none
    | some prod =>
      match checkout_items prods rest with
      | none => none
      | some items => some ((k, qty, prod.precio * (qty : Int)) :: items)

/-- C5 counterexample: checkout reads and displays the cart entries without
re-validating them: with live stock 1 and a stored quantity 5 it renders
quantity 5 (subtotal 500) and flags nothing, so not every cart-reading
operation caps or purges stale entries as the claim states. -/
theorem c5_counterexample_checkout_no_revalidation :
    checkout_items prodsW cOverW = some [(⟨1, "M", "rojo"⟩, 5, 500)] ∧
    variantStock dbLowW 1 "M" "rojo" = 1 ∧
    (1 : Nat) < 5 := by decide

/-- How remove_from_cart ends, one constructor per message branch of
store/views.py lines 196-206. -/
inductive RemoveOutcome where
  | removed
  | notInCart
deriving DecidableEq, Repr

/-- remove_from_cart (store/views.py lines 196-206): delete the key when
present, otherwise report the not-found error; the session cart is only
rewritten in the first case. -/
def remove_from_cart (c : CartState) (k : CartKey) : CartState × RemoveOutcome :=
  if c.any (fun p => p.1 == k) then (cartDel c k, RemoveOutcome.removed)
  else (c, RemoveOutcome.notInCart)

/-- C9: removing a key not present in the cart fails with the not-found
error and changes nothing; removing a present key (whose first occurrence
sits between l1 and l2, with no earlier entry holding the key) deletes
exactly that entry and leaves every other entry unchanged. -/
theorem c9_remove_semantics (c : CartState) (k : CartKey) :
    (c.any (fun p => p.1 == k) = false →
      remove_from_cart c k = (c, RemoveOutcome.notInCart)) ∧
    (∀ v l1 l2, c = l1 ++ (k, v) :: l2 → (∀ p ∈ l1, (p.1 == k) = false) →
      remove_from_cart c k = (l1 ++ l2, RemoveOutcome.removed)) := by
  constructor
  · intro h
    simp [remove_from_cart, h]
  · intro v l1 l2 hc hl1
    subst hc
    have hdel : cartDel (l1 ++ (k, v) :: l2) k = l1 ++ l2 := by
      induction l1 with
      | nil => simp [cartDel]
      | cons p rest ih =>
        have hp := hl1 p (List.mem_cons_self _ _)
        simp only [List.cons_append, cartDel, hp, Bool.false_eq_true, if_false,
          List.append_eq]
        rw [ih (fun x hx => hl1 x (List.mem_cons_of_mem _ hx))]
    have hany : (l1 ++ (k, v) :: l2).any (fun p => p.1 == k) = true :=
      List.any_eq_true.mpr
        ⟨(k, v), List.mem_append_right _ (List.mem_cons_self _ _), by simp⟩
    simp [remove_from_cart, hany, hdel]

/-- Cart keys for the removal example. -/
def kAW : CartKey := ⟨1, "M", "rojo"⟩

/-- Second key present in the removal example cart. -/
def kBW : CartKey := ⟨2, "L", "azul"⟩

/-- Key absent from the removal example cart. -/
def kCW : CartKey := ⟨3, "S", "verde"⟩

/-- Two-entry cart used to exercise removal. -/
def cRemW : CartState := [(kAW, 2), (kBW, 3)]

theorem c9_remove_semantics_witness :
    remove_from_cart cRemW kBW = ([(kAW, 2)] ++ [], RemoveOutcome.removed) ∧
    remove_from_cart cRemW kCW = (cRemW, RemoveOutcome.notInCart) :=
  ⟨(c9_remove_semantics cRemW kBW).2 3 [(kAW, 2)] [] (by decide) (by decide),
   (c9_remove_semantics cRemW kCW).1 (by decide)⟩

/-- One Pedido row as read by the employee order list. -/
structure PedidoRow where
  estado : String
  buyerName : String
  buyerDni : String
  trackingNumber : String
  localidad : String
deriving DecidableEq, Repr

/-- admin_orders (store/views.py lines 362-389).  The estado filter keeps
the orders with the given estado when it is one of the three valid states.
The free-text branch evaluates Q(buyer_name__icontains=q) and its three
disjuncts, but Q is never imported in store/views.py, so any non-empty
stripped q raises NameError at runtime before filtering; the embedding
returns that error. -/
def admin_orders (pedidos : List PedidoRow) (estadoParam qParam : String) :
    Except String (List PedidoRow) :=
  let estado := pyStrip estadoParam
  let q := pyStrip qParam
  let ps := if estado = "pendiente" ∨ estado = "realizado" ∨ estado = "rechazado"
            then pedidos.filter (fun p => p.estado == estado) else pedidos
  if q ≠ "" then Except.error "NameError: name Q is not defined"
  else Except.ok ps

/-- Pending order row for the listing example. -/
def rowPendW : PedidoRow := ⟨"pendiente", "Juan Perez", "123", "", "Rosario"⟩

/-- Fulfilled order row for the listing example. -/
def rowRealW : PedidoRow := ⟨"realizado", "Ana Gomez", "456", "T1", "Salta"⟩

/-- C10: the status filter works and an empty query lists the orders, but
any non-empty free-text query makes admin_orders raise NameError (the name Q
is used but never imported in store/views.py) instead of returning the
matching orders. -/
theorem c10_search_raises_nameerror :
    admin_orders [rowPendW, rowRealW] "pendiente" "" = Except.ok [rowPendW] ∧
    admin_orders [rowPendW, rowRealW] "" "" = Except.ok [rowPendW, rowRealW] ∧
    admin_orders [rowPendW, rowRealW] "" "juan"
      = Except.error "NameError: name Q is not defined" :=
  ⟨rfl, rfl, rfl⟩

end Store
